import Mathlib

set_option maxRecDepth 100000

/-!
Verification development for the rarimo zkverifier-kit passport verifier
(src/passport.go, current revision, together with the functional-option
configuration layer). Pure Go functions are embedded as Lean functions;
clock reads (time.Now) become an explicit `now` parameter; the external
collaborators (root verifier, Groth16 pairing check) become function
parameters; Go errors become an explicit error inductive.
-/

namespace ZkKit

/-! ## Time model

The Go code uses the external `time` package. Time points are modelled as
integers on a linear timeline measured in days; `AddDate(years, 0, 0)`
becomes addition of `years * 365` days (calendar normalization of the
external library is not modelled; no claim depends on it). -/

/-- A point in time (the model of Go `time.Time`), an integer day count. -/
abbrev GoTime := Int

/-- Model of Go `t.AddDate(y, 0, 0)`: shift a time point by `y` years. -/
def addYears (t : GoTime) (years : Int) : GoTime := t + years * 365

/-! ## Error model

Each distinct failure the Go code can attach to a field becomes one
constructor. The first five are ozzo-validation rule errors; `parseFail`
is a `strconv.ParseInt` error (a plain Go error, not an ozzo validation
error); `rootInvalid` is the root verifier's invalid-root error. -/

/-- One field-level failure reason, as the Go code distinguishes them. -/
inductive VErr where
  | required      -- ozzo val.Required ("cannot be blank")
  | mustBeValid   -- ozzo val.In ("must be a valid value")
  | maxExceeded   -- ozzo val.Max ("must be no greater than ...")
  | dateTooLate   -- beforeDate rule failure ("date is too late")
  | dateExpired   -- afterDate rule failure
  | badLength     -- ozzo val.Length(21, 21) failure
  | parseFail     -- strconv.ParseInt error (not an ozzo validation error)
  | rootInvalid   -- root verifier rejected the state root
deriving DecidableEq

/-- Outcome of the root-verification collaborator `VerifyRoot`:
success, invalid root, or the infrastructure error identity.ErrContractCall. -/
inductive RootRes where
  | ok
  | invalid
  | contractCall
deriving DecidableEq

/-- An aggregated validation report: field path paired with its failure. -/
abbrev Report := List (String × VErr)

/-- Model of ozzo `val.Errors{...}.Filter()`: drop the entries whose error
is nil, keeping field order. -/
def filterErrors (entries : List (String × Option VErr)) : Report :=
  entries.filterMap (fun p => p.2.map (fun e => (p.1, e)))

/-- The error a verification call can return: an aggregated validation
report (val.Errors), the propagated identity.ErrContractCall, or a
Groth16 pairing-check failure. -/
inductive VerifyError where
  | validation (report : Report)
  | contractCall
  | groth16
deriving DecidableEq

/-! ## SHA-256 (crypto/sha256 + encoding/hex)

The correlation-identifier option hashes its input with SHA-256 and stores
the lowercase hex digest. Bytes and 32-bit words are `Nat` values kept
below 2^8 / 2^32 by masking. -/

/-- Right-rotate a 32-bit word by n. -/
def rotr32 (n x : Nat) : Nat := ((x >>> n) ||| (x <<< (32 - n))) &&& 0xffffffff

/-- 32-bit addition. -/
def add32 (a b : Nat) : Nat := (a + b) &&& 0xffffffff

/-- The SHA-256 round constants, written in decimal. -/
def sha256K : List Nat :=
  [1116352408, 1899447441, 3049323471, 3921009573, 961987163,
   1508970993, 2453635748, 2870763221, 3624381080, 310598401,
   607225278, 1426881987, 1925078388, 2162078206, 2614888103,
   3248222580, 3835390401, 4022224774, 264347078, 604807628,
   770255983, 1249150122, 1555081692, 1996064986, 2554220882,
   2821834349, 2952996808, 3210313671, 3336571891, 3584528711,
   113926993, 338241895, 666307205, 773529912, 1294757372,
   1396182291, 1695183700, 1986661051, 2177026350, 2456956037,
   2730485921, 2820302411, 3259730800, 3345764771, 3516065817,
   3600352804, 4094571909, 275423344, 430227734, 506948616,
   659060556, 883997877, 958139571, 1322822218, 1537002063,
   1747873779, 1955562222, 2024104815, 2227730452, 2361852424,
   2428436474, 2756734187, 3204031479, 3329325298]

/-- The SHA-256 initial hash state, written in decimal. -/
def sha256H0 : List Nat :=
  [1779033703, 3144134277, 1013904242, 2773480762,
   1359893119, 2600822924, 528734635, 1541459225]

/-- Extend a 16-word block with k further schedule words. -/
def scheduleExt (ws : List Nat) : Nat → List Nat
  | 0 => ws
  | k + 1 =>
    let i := ws.length
    let a := ws.getD (i - 15) 0
    let b := ws.getD (i - 2) 0
    let s0 := rotr32 7 a ^^^ rotr32 18 a ^^^ (a >>> 3)
    let s1 := rotr32 17 b ^^^ rotr32 19 b ^^^ (b >>> 10)
    scheduleExt (ws ++ [add32 (add32 (ws.getD (i - 16) 0) s0) (add32 (ws.getD (i - 7) 0) s1)]) k

/-- One SHA-256 compression round; `wk` is the (round constant, schedule
word) pair, `st` the eight-word working state. -/
def compressStep (wk : Nat × Nat) (st : List Nat) : List Nat :=
  let a := st.getD 0 0
  let b := st.getD 1 0
  let c := st.getD 2 0
  let d := st.getD 3 0
  let e := st.getD 4 0
  let f := st.getD 5 0
  let g := st.getD 6 0
  let h := st.getD 7 0
  let s1 := rotr32 6 e ^^^ rotr32 11 e ^^^ rotr32 25 e
  let ch := (e &&& f) ^^^ ((e ^^^ 0xffffffff) &&& g)
  let t1 := add32 (add32 (add32 h s1) (add32 ch wk.1)) wk.2
  let s0 := rotr32 2 a ^^^ rotr32 13 a ^^^ rotr32 22 a
  let maj := (a &&& b) ^^^ (a &&& c) ^^^ (b &&& c)
  let t2 := add32 s0 maj
  [add32 t1 t2, a, b, c, add32 d t1, e, f, g]

/-- Compress one 16-word block into the hash state. -/
def compressBlock (h block : List Nat) : List Nat :=
  let ws := scheduleExt block 48
  let st := (List.zip sha256K ws).foldl (fun s wk => compressStep wk s) h
  (List.zip h st).map (fun p => add32 p.1 p.2)

/-- Big-endian bytes (k of them) of a natural number. -/
def natToBEBytes : Nat → Nat → List Nat
  | 0, _ => []
  | k + 1, n => natToBEBytes k (n >>> 8) ++ [n &&& 0xff]

/-- Group a byte list into big-endian 32-bit words. -/
def toWordsBE : List Nat → List Nat
  | b0 :: b1 :: b2 :: b3 :: rest =>
    ((b0 <<< 24) ||| (b1 <<< 16) ||| (b2 <<< 8) ||| b3) :: toWordsBE rest
  | _ => []

/-- SHA-256 message padding: a 0x80 byte, zeros to 56 mod 64, and the
bit length as eight big-endian bytes. -/
def sha256Pad (msg : List Nat) : List Nat :=
  let l := msg.length
  let k := (119 - (l % 64)) % 64
  msg ++ [0x80] ++ List.replicate k 0 ++ natToBEBytes 8 (l * 8)

/-- Split a word list into 16-word blocks; `k` is the number of blocks. -/
def chunkWords : Nat → List Nat → List (List Nat)
  | 0, _ => []
  | k + 1, ws => ws.take 16 :: chunkWords k (ws.drop 16)

/-- Fold the compression function over the blocks. -/
def foldBlocks : List Nat → List (List Nat) → List Nat
  | h, [] => h
  | h, b :: rest => foldBlocks (compressBlock h b) rest

/-- The SHA-256 digest (32 bytes) of a byte list. -/
def sha256Bytes (msg : List Nat) : List Nat :=
  let ws := toWordsBE (sha256Pad msg)
  let hfin := foldBlocks sha256H0 (chunkWords (ws.length / 16) ws)
  (hfin.map (natToBEBytes 4)).flatten

/-- Lowercase hex digit for a value below 16. -/
def hexDigit (n : Nat) : Char := Char.ofNat (if n < 10 then 48 + n else 87 + n)

/-- Model of hex.EncodeToString: lowercase hex of a byte list. -/
def hexEncode (bs : List Nat) : String :=
  String.mk ((bs.map (fun b => [hexDigit (b / 16), hexDigit (b % 16)])).flatten)

/-- UTF-8 encoding of one code point. -/
def utf8Bytes (c : Nat) : List Nat :=
  if c < 0x80 then [c]
  else if c < 0x800 then [0xc0 ||| (c >>> 6), 0x80 ||| (c &&& 0x3f)]
  else if c < 0x10000 then
    [0xe0 ||| (c >>> 12), 0x80 ||| ((c >>> 6) &&& 0x3f), 0x80 ||| (c &&& 0x3f)]
  else
    [0xf0 ||| (c >>> 18), 0x80 ||| ((c >>> 12) &&& 0x3f),
     0x80 ||| ((c >>> 6) &&& 0x3f), 0x80 ||| (c &&& 0x3f)]

/-- The UTF-8 bytes of a string (Go `[]byte(s)`). -/
def stringBytes (s : String) : List Nat :=
  (s.data.map (fun c => utf8Bytes c.toNat)).flatten

/-- Model of hex.EncodeToString(sha256.Sum256([]byte(s))): the lowercase
hex SHA-256 digest of a string. -/
def sha256Hex (s : String) : String := hexEncode (sha256Bytes (stringBytes s))

/-! ## Decimal parsing (strconv.ParseInt) -/

/-- Accumulate decimal digits; fails on a non-digit character. -/
def parseDigitsAux : List Char → Nat → Option Nat
  | [], acc => some acc
  | c :: rest, acc =>
    if c.isDigit then parseDigitsAux rest (acc * 10 + (c.toNat - 48)) else none

/-- A nonempty all-digit character list as a natural number. -/
def parseDigits : List Char → Option Nat
  | [] => none
  | l => parseDigitsAux l 0

/-- Model of strconv.ParseInt(s, 10, 64): optional sign, decimal digits,
failure outside the signed 64-bit range. -/
def parseInt64 (s : String) : Option Int :=
  let signed : Bool × List Char :=
    match s.data with
    | '-' :: rest => (true, rest)
    | '+' :: rest => (false, rest)
    | l => (false, l)
  match parseDigits signed.2 with
  | none => none
  | some n =>
    let v : Int := if signed.1 then -(n : Int) else (n : Int)
    if v < -9223372036854775808 ∨ 9223372036854775807 < v then none else some v

/-- Base-256 big-endian digits of a natural number (Go big.Int Bytes). -/
def natToBytesBE : Nat → List Nat
  | 0 => []
  | n + 1 => natToBytesBE ((n + 1) / 256) ++ [(n + 1) % 256]
decreasing_by exact Nat.div_lt_self (Nat.succ_pos _) (by norm_num)

/-- Modelled from the spec: the helper decodeInt (its file is absent from
src) decodes a packed-integer signal to text, the circuit convention for
representing byte strings as one decimal field element (for example the
citizenship signal 5589842 decodes to UKR). A non-numeric signal decodes
to the empty string. -/
def decodeInt (s : String) : String :=
  match parseDigits s.data with
  | none => ""
  | some n => String.mk ((natToBytesBE n).map Char.ofNat)

/-! ## Comparison rules (date rules of the helpers file)

The date rules beforeDate and afterDate are modelled from the spec: their
file is absent from src. A date-carrying signal is a decimal string
parsed to a time point; beforeDate X accepts a value on or before X
(inclusive), afterDate X accepts a value strictly after X. -/

/-- Modelled from the spec: rule "value parses to a date on or before the
bound" (inclusive boundary). -/
def beforeDate (bound : GoTime) (s : String) : Option VErr :=
  match parseInt64 s with
  | none => some VErr.parseFail
  | some v => if v ≤ bound then none else some VErr.dateTooLate

/-- Modelled from the spec: rule "value parses to a date strictly after
the bound". -/
def afterDate (bound : GoTime) (s : String) : Option VErr :=
  match parseInt64 s with
  | none => some VErr.parseFail
  | some v => if bound < v then none else some VErr.dateExpired

/-- Ozzo val.Required on a string value. -/
def requiredString (s : String) : Option VErr :=
  if s = "" then some VErr.required else none

/-- Ozzo val.In over an allow-list of strings (membership check). -/
def inRule (allowed : List String) (v : String) : Option VErr :=
  if v ∈ allowed then none else some VErr.mustBeValid

/-- Modelled from the spec: the helper validateOnOptSet (its file is
absent from src) runs val.Required followed by the rule only when the
corresponding option is set; an unset option is vacuously valid. -/
def validateOnOptSet (value : String) (optSet : Bool) (rule : String → Option VErr) :
    Option VErr :=
  if optSet then
    if value = "" then some VErr.required else rule value
  else none

/-! ## Option model (VerifyOptions and the functional options)

The current options file is absent from src (src/unnamed/part_000 holds an
older revision); the structure below is modelled from the spec's
configuration table: every field is independently optional with a
first-class unset state, and maxIdentitiesCount carries the sentinel -1
for "unbounded" so that no restriction is distinguishable from bound 0. -/

/-- The verifier configuration. Unset states: empty string, age 0, empty
list, none; maxIdentitiesCount unset is the sentinel -1. -/
structure VerifyOptions where
  externalID : String := ""
  age : Nat := 0
  citizenships : List String := []
  eventDataExpected : Option String := none
  eventID : String := ""
  maxIdentitiesCount : Int := -1
  maxIdentityCreationTimestamp : Option GoTime := none
  rootVerifier : String → RootRes := fun _ => RootRes.ok
  verificationKeyFile : String := ""

/-- A functional option: one mutation of the configuration. -/
abbrev VerifyOption := VerifyOptions → VerifyOptions

/-- Modelled from the spec: mergeOptions of the current options file
(absent from src) folds the option mutators over the given base
configuration, later mutators overriding earlier ones field by field. -/
def mergeOptions (opts : VerifyOptions) (options : List VerifyOption) : VerifyOptions :=
  options.foldl (fun o f => f o) opts

/-- WithExternalID hashes the raw identifier with SHA-256 and stores the
hex digest (src/unnamed/part_000 lines 40-45); the raw value is never
stored. -/
def WithExternalID (identifier : String) : VerifyOption :=
  fun opts => { opts with externalID := sha256Hex identifier }

/-- Modelled from the spec: WithAgeAbove of the current options file
(absent from src) stores the minimal age as a number of years; the engine
resolves it to an absolute bound at validation time (src/unnamed/part_000
holds an older revision that stored an absolute time at configuration
time). -/
def WithAgeAbove (age : Nat) : VerifyOption :=
  fun opts => { opts with age := age }

/-- WithCitizenships stores the variadic list of Alpha-3 codes
(src/unnamed/part_000 lines 58-65). -/
def WithCitizenships (citizenships : List String) : VerifyOption :=
  fun opts => { opts with citizenships := citizenships }

/-- WithEventID stores the decimal event identifier verbatim
(src/unnamed/part_000 lines 76-80). -/
def WithEventID (identifier : String) : VerifyOption :=
  fun opts => { opts with eventID := identifier }

/-- Modelled from the spec: the identity-count mutator takes the bound
value (-1 meaning unbounded). -/
def WithIdentitiesCounter (n : Int) : VerifyOption :=
  fun opts => { opts with maxIdentitiesCount := n }

/-- Modelled from the spec: the identity-creation-time mutator takes the
timestamp bound. -/
def WithIdentitiesCreationTimestampLimit (t : GoTime) : VerifyOption :=
  fun opts => { opts with maxIdentityCreationTimestamp := some t }

/-- Modelled from the spec: the root-verifier mutator stores the
capability reference. -/
def WithRootVerifier (rv : String → RootRes) : VerifyOption :=
  fun opts => { opts with rootVerifier := rv }

/-! ## Signal layout (src/passport.go lines 153-166) -/

def Nullifier : Nat := 0
def Citizenship : Nat := 6
def EventID : Nat := 9
def EventData : Nat := 10
def IdStateRoot : Nat := 11
def Selector : Nat := 12
def TimestampUpperBound : Nat := 14
def IdentityCounterUpperBound : Nat := 16
def BirthdateUpperBound : Nat := 18
def ExpirationDateLowerBound : Nat := 19

def proofSelectorValue : String := "39"

/-- The expected public-signal vector length. -/
def pubSignalsCount : Nat := 21

/-! ## Proof input and verifier -/

/-- A zero-knowledge proof input: the proof container (opaque beyond
present or absent, Go zkptypes.ZKProof.Proof being a nilable pointer) and
the public-signal vector (a Go slice; absent is the empty list). -/
structure ZKProof where
  proof : Bool
  pubSignals : List String
deriving DecidableEq

/-- The verifier facade: verification key bytes (opaque) and the stored
base configuration (src/passport.go lines 172-177). -/
structure Verifier where
  verificationKey : String
  opts : VerifyOptions

/-! ## Signal validator (src/passport.go lines 229-291) -/

/-- The ozzo When-rule applied to the parsed identity counter
(src/passport.go lines 271-275): when maxIdentitiesCount is not the -1
sentinel, the counter must be non-empty (val.Required, failing on the
int64 zero value) and at most the bound (val.Max). -/
def identityCounterRule (maxCount : Int) (counter : Int) : Option VErr :=
  if maxCount ≠ -1 then
    if counter = 0 then some VErr.required
    else if maxCount < counter then some VErr.maxExceeded
    else none
  else none

/-- The check of the timestamp-upper-bound signal against the configured
identity-creation-timestamp limit (src/passport.go lines 276-280). -/
def timestampRule (opts : VerifyOptions) (signals : List String) : Option VErr :=
  validateOnOptSet (signals.getD TimestampUpperBound "")
    opts.maxIdentityCreationTimestamp.isSome
    (beforeDate (opts.maxIdentityCreationTimestamp.getD 0))

/-- validateIdentitiesInputs (src/passport.go lines 265-291): parse the
identity-counter signal (a parse failure is returned alone under its
field path), evaluate both freshness legs, and apply the OR logic: if the
counter leg failed, return the timestamp leg's error under the timestamp
path; otherwise if the timestamp leg failed, return the (nil) counter
error under the counter path; otherwise nothing. -/
def validateIdentitiesInputs (opts : VerifyOptions) (signals : List String) :
    List (String × Option VErr) :=
  match parseInt64 (signals.getD IdentityCounterUpperBound "") with
  | none => [("pub_signals/identity_counter_upper_bound", some VErr.parseFail)]
  | some counter =>
    let cErr := identityCounterRule opts.maxIdentitiesCount counter
    let tErr := timestampRule opts signals
    if cErr.isSome then [("pub_signals/timestamp_upper_bound", tErr)]
    else if tErr.isSome then [("pub_signals/identity_counter_upper_bound", cErr)]
    else []

/-- The argument-shape check of validateBase (src/passport.go lines
232-235): the proof container must be present (val.Required) and the
signal vector non-empty (val.Required) of length exactly 21
(val.Length(21, 21), which skips an empty value). -/
def shapeReport (proofPresent : Bool) (signals : List String) : Report :=
  filterErrors
    [("zk_proof/proof", if proofPresent then none else some VErr.required),
     ("zk_proof/pub_signals",
       if signals.isEmpty then some VErr.required
       else if signals.length = pubSignalsCount then none else some VErr.badLength)]

/-- The allowed-birth-date bound of validateBase (src/passport.go line
245): time.Now().UTC().AddDate(-age, 0, 0), resolved from the clock at
validation time. -/
def allowedBirthDate (now : GoTime) (age : Nat) : GoTime :=
  addYears now (-(age : Int))

/-- The id_state_hash entry of validateBase once the contract-call case
is excluded: the root verifier's invalid-root error, or nil on success
(src/passport.go lines 240-250). -/
def rootError (opts : VerifyOptions) (signals : List String) : Option VErr :=
  if opts.rootVerifier (signals.getD IdStateRoot "") = RootRes.invalid then
    some VErr.rootInvalid
  else none

/-- The ordered field-check entries of validateBase's `all` map
(src/passport.go lines 246-256): the always-required checks, the
root-check entry, and the conditional checks. -/
def baseChecks (opts : VerifyOptions) (now : GoTime) (signals : List String) :
    List (String × Option VErr) :=
  [("pub_signals/nullifier", requiredString (signals.getD Nullifier "")),
   ("pub_signals/selector",
     if signals.getD Selector "" = "" then some VErr.required
     else if signals.getD Selector "" = proofSelectorValue then none
     else some VErr.mustBeValid),
   ("pub_signals/expiration_date_lower_bound",
     if signals.getD ExpirationDateLowerBound "" = "" then some VErr.required
     else afterDate now (signals.getD ExpirationDateLowerBound "")),
   ("pub_signals/id_state_hash", rootError opts signals),
   ("pub_signals/event_id",
     validateOnOptSet (signals.getD EventID "") (opts.eventID != "")
       (inRule [opts.eventID])),
   ("pub_signals/birth_date_upper_bound",
     validateOnOptSet (signals.getD BirthdateUpperBound "") (opts.age != 0)
       (beforeDate (allowedBirthDate now opts.age))),
   ("pub_signals/citizenship",
     validateOnOptSet (decodeInt (signals.getD Citizenship ""))
       (!opts.citizenships.isEmpty) (inRule opts.citizenships)),
   ("pub_signals/event_data",
     validateOnOptSet (signals.getD EventData "")
       opts.eventDataExpected.isSome
       (inRule [opts.eventDataExpected.getD ""]))]

/-- validateBase (src/passport.go lines 229-263): the shape check first
(failure returns immediately); then the root-verification collaborator,
whose identity.ErrContractCall is propagated as-is; then all field checks
with errors aggregated by field path, the freshness pair merged in, and
the filtered report returned when non-empty. -/
def validateBase (opts : VerifyOptions) (now : GoTime) (zkProof : ZKProof) :
    Option VerifyError :=
  let signals := zkProof.pubSignals
  let shape := shapeReport zkProof.proof signals
  if shape ≠ [] then some (VerifyError.validation shape)
  else if opts.rootVerifier (signals.getD IdStateRoot "") = RootRes.contractCall then
    some VerifyError.contractCall
  else
    let report :=
      filterErrors (baseChecks opts now signals ++ validateIdentitiesInputs opts signals)
    if report = [] then none else some (VerifyError.validation report)

/-! ## Verifier facade -/

/-- VerifyProof (src/passport.go lines 212-227), with the external
Groth16 pairing check passed in as the collaborator `g` and the receiver
state threaded explicitly: a per-call verifier v2 is built by merging the
call-time options over the stored base configuration; a validation error
returns immediately; otherwise the pairing check runs on the raw proof
and the stored key. The pair's second component is the receiver after
the call (the body never assigns through the receiver). -/
def VerifyProof (g : ZKProof → String → Bool) (v : Verifier) (now : GoTime)
    (proof : ZKProof) (options : List VerifyOption) :
    Option VerifyError × Verifier :=
  let v2 : Verifier :=
    { verificationKey := v.verificationKey, opts := mergeOptions v.opts options }
  match validateBase v2.opts now proof with
  | some e => (some e, v)
  | none =>
    (if g proof v.verificationKey then none else some VerifyError.groth16, v)

/-- VerifyExternalID (src/passport.go lines 78-85): validate the stored
externalID digest with val.Required and val.In(candidate), i.e. the
stored digest must be non-empty and equal to the candidate string. -/
def VerifyExternalID (v : Verifier) (externalID : String) : Option VerifyError :=
  let report := filterErrors
    [("external_id",
      if v.opts.externalID = "" then some VErr.required
      else if v.opts.externalID = externalID then none
      else some VErr.mustBeValid)]
  if report = [] then none else some (VerifyError.validation report)

/-! ## Concrete inputs used by the claim theorems -/

/-- A pairing-check collaborator that accepts every proof. -/
def gTrue : ZKProof → String → Bool := fun _ _ => true

/-- A pairing-check collaborator that rejects every proof. -/
def gFalse : ZKProof → String → Bool := fun _ _ => false

/-- A root verifier that always reports the infrastructure error. -/
def rvContract : String → RootRes := fun _ => RootRes.contractCall

/-- A configuration with both freshness limits set: at most 5 identities,
creation timestamp at most 1000. -/
def c1Opts : VerifyOptions :=
  mergeOptions {} [WithIdentitiesCounter 5, WithIdentitiesCreationTimestampLimit 1000]

/-- A well-shaped signal vector whose identity counter (10) exceeds the
limit 5 and whose timestamp upper bound (2000) is after the limit 1000;
every other field check passes at time 0. -/
def c1Signals : List String :=
  ["1", "0", "0", "0", "0", "0", "0", "0", "0", "0",
   "0", "0", "39", "0", "2000", "0", "10", "0", "0", "99", "0"]

def c1Proof : ZKProof := { proof := true, pubSignals := c1Signals }

/-- Claim C2 formalised as stated: any proof with a signal vector of the
expected length for which the root verifier reports the contract-call
error makes VerifyProof return that error. -/
def claim_C2_statement : Prop :=
  ∀ (g : ZKProof → String → Bool) (v : Verifier) (now : GoTime)
    (proof : ZKProof) (options : List VerifyOption),
    proof.pubSignals.length = pubSignalsCount →
    (mergeOptions v.opts options).rootVerifier
        (proof.pubSignals.getD IdStateRoot "") = RootRes.contractCall →
    (VerifyProof g v now proof options).1 = some VerifyError.contractCall

/-- A proof whose signal vector has the expected length but whose proof
container is absent. -/
def c2BadProof : ZKProof := { proof := false, pubSignals := List.replicate 21 "0" }

/-- A well-shaped proof input (container present, 21 signals). -/
def c2GoodProof : ZKProof := { proof := true, pubSignals := List.replicate 21 "0" }

/-- A signal vector whose birthdate-upper-bound signal is 0 and whose
expiration signal never parses, so that only the birthdate check depends
on the validation time. -/
def c4Signals : List String :=
  ["1", "0", "0", "0", "0", "0", "0", "0", "0", "0",
   "0", "0", "39", "0", "0", "0", "0", "0", "0", "zz", "0"]

def c4Proof : ZKProof := { proof := true, pubSignals := c4Signals }

/-- Claim C5 formalised as stated: the correlation check succeeds exactly
when the configured digest is set and equals the SHA-256 hex digest
recomputed from the candidate raw identifier. -/
def claim_C5_statement : Prop :=
  ∀ (v : Verifier) (candidate : String),
    VerifyExternalID v candidate = none ↔
      (v.opts.externalID ≠ "" ∧ v.opts.externalID = sha256Hex candidate)

/-- A verifier whose correlation digest was configured from the raw
identifier x. -/
def c5Verifier : Verifier :=
  { verificationKey := "", opts := mergeOptions {} [WithExternalID "x"] }

/-- A proof input whose signal vector is absent (a nil slice). -/
def c6Proof : ZKProof := { proof := true, pubSignals := [] }

/-- The shape error validateBase reports for an absent signal vector. -/
def c6Err : VerifyError :=
  VerifyError.validation [("zk_proof/pub_signals", VErr.required)]

/-- A well-shaped vector whose identity-counter signal is not a decimal
integer. -/
def c9Signals : List String :=
  ["1", "0", "0", "0", "0", "0", "0", "0", "0", "0",
   "0", "0", "39", "0", "0", "0", "abc", "0", "0", "99", "0"]

def c9Proof : ZKProof := { proof := true, pubSignals := c9Signals }

/-- A well-shaped vector whose identity-counter signal parses to 0. -/
def c10Signals : List String :=
  ["1", "0", "0", "0", "0", "0", "0", "0", "0", "0",
   "0", "0", "39", "0", "0", "0", "0", "0", "0", "99", "0"]

/-! ## Helper lemmas -/

/-- Filtering an appended error list filters each part. -/
theorem filterErrors_append (a b : List (String × Option VErr)) :
    filterErrors (a ++ b) = filterErrors a ++ filterErrors b :=
  List.filterMap_append a b _

/-- Every entry of a filtered report keeps a key of the original list. -/
theorem filterErrors_key_mem (l : List (String × Option VErr)) :
    ∀ e ∈ filterErrors l, e.1 ∈ l.map Prod.fst := by
  intro e he
  rw [filterErrors, List.mem_filterMap] at he
  obtain ⟨a, ha, hfa⟩ := he
  cases h2 : a.2 with
  | none => rw [h2] at hfa; simp at hfa
  | some err =>
    rw [h2] at hfa
    simp only [Option.map_some'] at hfa
    injection hfa with h3
    subst h3
    exact List.mem_map_of_mem Prod.fst ha

/-- An absent proof container or a vector length other than 21 makes the
shape report non-empty. -/
theorem shapeReport_ne_nil (b : Bool) (s : List String)
    (h : b = false ∨ s.length ≠ pubSignalsCount) : shapeReport b s ≠ [] := by
  rcases h with h | h
  · subst h
    cases hs : s.isEmpty <;> by_cases hlen : s.length = pubSignalsCount <;>
      simp [shapeReport, filterErrors, hs, hlen]
  · cases b <;> cases hs : s.isEmpty <;>
      simp [shapeReport, filterErrors, hs, h]

/-- The shape report depends on the vector only through its length. -/
theorem shapeReport_congr (b : Bool) (s1 s2 : List String)
    (h : s1.length = s2.length) : shapeReport b s1 = shapeReport b s2 := by
  have he : s1.isEmpty = s2.isEmpty := by
    cases s1 <;> cases s2 <;> simp_all
  simp [shapeReport, he, h]

/-- A present proof container with a 21-signal vector passes the shape
check. -/
theorem shapeReport_of_shapeOk (b : Bool) (s : List String)
    (hb : b = true) (hlen : s.length = pubSignalsCount) : shapeReport b s = [] := by
  have hnil : s ≠ [] := by
    intro hn; rw [hn] at hlen; simp [pubSignalsCount] at hlen
  simp [shapeReport, filterErrors, hb, hlen, List.isEmpty_eq_true, hnil]

/-- Every entry of the shape report is keyed under zk_proof. -/
theorem shapeReport_keys (b : Bool) (s : List String) :
    ∀ e ∈ shapeReport b s, e.1 = "zk_proof/proof" ∨ e.1 = "zk_proof/pub_signals" := by
  intro e he
  have h4 := filterErrors_key_mem _ e he
  simpa [shapeReport] using h4

/-- A failing shape check makes validateBase return exactly the shape
report. -/
theorem validateBase_shape_fail (opts : VerifyOptions) (now : GoTime) (p : ZKProof)
    (h : shapeReport p.proof p.pubSignals ≠ []) :
    validateBase opts now p
      = some (VerifyError.validation (shapeReport p.proof p.pubSignals)) := by
  unfold validateBase
  simp [h]

/-- With the shape check passing and the root verifier not reporting the
contract-call error, validateBase returns the filtered field report. -/
theorem validateBase_field_phase (opts : VerifyOptions) (now : GoTime) (p : ZKProof)
    (hshape : shapeReport p.proof p.pubSignals = [])
    (hroot : opts.rootVerifier (p.pubSignals.getD IdStateRoot "") ≠ RootRes.contractCall) :
    validateBase opts now p
      = (if filterErrors (baseChecks opts now p.pubSignals
            ++ validateIdentitiesInputs opts p.pubSignals) = [] then none
         else some (VerifyError.validation
            (filterErrors (baseChecks opts now p.pubSignals
              ++ validateIdentitiesInputs opts p.pubSignals)))) := by
  unfold validateBase
  simp only [List.getD_eq_getElem?_getD] at hroot
  simp [hshape, hroot]

/-- Evaluation of validateBase on the C4 vector for any non-zero
configured age m: the unparseable expiration signal always fails, and the
birthdate check fails exactly when the validation-time bound has moved
below the birthdate signal's value 0. -/
theorem c4_eval (m : Nat) (t : GoTime) (hm : m ≠ 0) :
    validateBase { age := m } t c4Proof
      = some (VerifyError.validation
          (("pub_signals/expiration_date_lower_bound", VErr.parseFail) ::
            (if (0:Int) ≤ allowedBirthDate t m then []
             else [("pub_signals/birth_date_upper_bound", VErr.dateTooLate)]))) := by
  have e1 : parseInt64 "zz" = none := by decide
  have e2 : parseInt64 "0" = some 0 := by decide
  by_cases hbd : (0:Int) ≤ allowedBirthDate t m <;>
    simp [validateBase, baseChecks, validateIdentitiesInputs, identityCounterRule,
      timestampRule, rootError, shapeReport, filterErrors, validateOnOptSet,
      requiredString, inRule, beforeDate, afterDate, decodeInt, c4Proof, c4Signals,
      e1, e2, hm, hbd, Nullifier, Citizenship, EventID, EventData, IdStateRoot,
      Selector, TimestampUpperBound, IdentityCounterUpperBound, BirthdateUpperBound,
      ExpirationDateLowerBound, proofSelectorValue, pubSignalsCount]

/-! ## Claim theorems -/

/-- C1 (code_bug evidence): with both freshness limits configured (count
5, timestamp 1000) and a signal vector failing both legs (counter 10,
timestamp 2000), the code reports exactly one field error, under
pub_signals/timestamp_upper_bound, and none under
pub_signals/identity_counter_upper_bound — not the two errors the claim
states. -/
theorem c1_both_legs_failing_reports_only_timestamp :
    validateBase c1Opts 0 c1Proof
      = some (VerifyError.validation
          [("pub_signals/timestamp_upper_bound", VErr.dateTooLate)]) ∧
    validateIdentitiesInputs c1Opts c1Signals
      = [("pub_signals/timestamp_upper_bound", some VErr.dateTooLate)] := by
  constructor <;> decide

/-- C2 (counterexample): the claim as stated fails when the proof
container is absent: the signal vector has the expected length and the
root verifier reports the contract-call error, yet VerifyProof returns
the shape validation error, not the contract-call error. -/
theorem c2_counterexample : ¬ claim_C2_statement := by
  intro h
  have h2 := h gTrue { verificationKey := "", opts := { rootVerifier := rvContract } } 0
    c2BadProof [] (by decide) (by decide)
  exact absurd h2 (by decide)

/-- C2 (amended): for a proof whose container is present and whose signal
vector has the expected length, a root verifier reporting the
contract-call infrastructure error makes VerifyProof return exactly that
error, a non-validation error, regardless of the other field values. -/
theorem c2_infrastructure_error_propagates
    (g : ZKProof → String → Bool) (v : Verifier) (now : GoTime)
    (proof : ZKProof) (options : List VerifyOption)
    (hp : proof.proof = true)
    (hl : proof.pubSignals.length = pubSignalsCount)
    (hr : (mergeOptions v.opts options).rootVerifier
        (proof.pubSignals.getD IdStateRoot "") = RootRes.contractCall) :
    (VerifyProof g v now proof options).1 = some VerifyError.contractCall ∧
    ∀ r : Report, VerifyError.contractCall ≠ VerifyError.validation r := by
  have hshape := shapeReport_of_shapeOk proof.proof proof.pubSignals hp hl
  have hvb : validateBase (mergeOptions v.opts options) now proof
      = some VerifyError.contractCall := by
    unfold validateBase
    simp only [List.getD_eq_getElem?_getD] at hr
    simp [hshape, hr]
  exact ⟨by simp [VerifyProof, hvb], fun r => by simp⟩

/-- C2 witness: the amended theorem at a concrete well-shaped proof and a
contract-call root verifier. -/
theorem c2_witness :
    (VerifyProof gTrue { verificationKey := "", opts := { rootVerifier := rvContract } }
        0 c2GoodProof []).1 = some VerifyError.contractCall ∧
    ∀ r : Report, VerifyError.contractCall ≠ VerifyError.validation r :=
  c2_infrastructure_error_propagates gTrue
    { verificationKey := "", opts := { rootVerifier := rvContract } } 0 c2GoodProof []
    (by decide) (by decide) (by decide)

/-- C3: an absent proof container or a vector of length other than 21
makes validateBase return a non-empty report keyed only under zk_proof
field paths, and the result is the same for any configuration (in
particular any root verifier, which is therefore never consulted), any
validation time, and any other vector of the same shape (so no signal
content is read). -/
theorem c3_shape_error_short_circuits
    (opts1 opts2 : VerifyOptions) (now1 now2 : GoTime) (p1 p2 : ZKProof)
    (hshape : p1.proof = false ∨ p1.pubSignals.length ≠ pubSignalsCount)
    (hp : p1.proof = p2.proof)
    (hl : p1.pubSignals.length = p2.pubSignals.length) :
    (∃ r, r ≠ [] ∧
      (∀ e ∈ r, e.1 = "zk_proof/proof" ∨ e.1 = "zk_proof/pub_signals") ∧
      validateBase opts1 now1 p1 = some (VerifyError.validation r)) ∧
    validateBase opts1 now1 p1 = validateBase opts2 now2 p2 := by
  have h1 := shapeReport_ne_nil p1.proof p1.pubSignals hshape
  have hc : shapeReport p1.proof p1.pubSignals = shapeReport p2.proof p2.pubSignals := by
    rw [← hp]; exact shapeReport_congr _ _ _ hl
  have h2 : shapeReport p2.proof p2.pubSignals ≠ [] := hc ▸ h1
  refine ⟨⟨shapeReport p1.proof p1.pubSignals, h1,
      shapeReport_keys _ _, validateBase_shape_fail _ _ _ h1⟩, ?_⟩
  rw [validateBase_shape_fail _ _ _ h1, validateBase_shape_fail _ _ _ h2, hc]

/-- C3 witness: a 20-signal vector is rejected with the same shape error
whether the root verifier always fails with the contract-call error or
always succeeds, and whatever the vector holds. -/
theorem c3_witness :
    (∃ r, r ≠ [] ∧
      (∀ e ∈ r, e.1 = "zk_proof/proof" ∨ e.1 = "zk_proof/pub_signals") ∧
      validateBase { rootVerifier := rvContract } 5
          { proof := true, pubSignals := List.replicate 20 "1" }
        = some (VerifyError.validation r)) ∧
    validateBase { rootVerifier := rvContract } 5
        { proof := true, pubSignals := List.replicate 20 "1" }
      = validateBase {} 7 { proof := true, pubSignals := List.replicate 20 "2" } :=
  c3_shape_error_short_circuits { rootVerifier := rvContract } {} 5 7
    { proof := true, pubSignals := List.replicate 20 "1" }
    { proof := true, pubSignals := List.replicate 20 "2" }
    (by decide) (by decide) (by decide)

/-- C4: for every configured minimum age n, the mutator stores the year
count n itself; the latest-allowed-birthdate bound is resolved from the
validation-time clock, so two different validation times always yield two
different absolute bounds, and the same configuration with the same proof
can validate differently at two different times. -/
theorem c4_age_bound_resolved_at_validation_time (n : Nat) (hn : 0 < n) :
    ((mergeOptions {} [WithAgeAbove n]).age = n) ∧
    (∀ t1 t2 : GoTime, t1 ≠ t2 →
      allowedBirthDate t1 ((mergeOptions {} [WithAgeAbove n]).age)
        ≠ allowedBirthDate t2 ((mergeOptions {} [WithAgeAbove n]).age)) ∧
    (validateBase (mergeOptions {} [WithAgeAbove n]) ((n : Int) * 365) c4Proof
      ≠ validateBase (mergeOptions {} [WithAgeAbove n]) ((n : Int) * 365 - 1) c4Proof) := by
  have hopts : mergeOptions {} [WithAgeAbove n] = { age := n } := rfl
  have hm : n ≠ 0 := Nat.pos_iff_ne_zero.mp hn
  have key1 : ∀ c u1 u2 : Int, u1 ≠ u2 → u1 + c ≠ u2 + c := by
    intro c u1 u2 h
    omega
  have key2 : ∀ u : Int, (0:Int) ≤ u * 365 + -u * 365 := by
    intro u
    omega
  have key3 : ∀ u : Int, ¬ (0:Int) ≤ (u * 365 - 1) + -u * 365 := by
    intro u
    omega
  refine ⟨rfl, ?_, ?_⟩
  · intro t1 t2 hne
    exact key1 (-(n:Int) * 365) t1 t2 hne
  · rw [hopts, c4_eval n _ hm, c4_eval n _ hm]
    have h1 : (0:Int) ≤ allowedBirthDate ((n : Int) * 365) n := key2 (n:Int)
    have h2 : ¬ (0:Int) ≤ allowedBirthDate ((n : Int) * 365 - 1) n := key3 (n:Int)
    rw [if_pos h1, if_neg h2]
    simp

/-- C4 witness: the theorem at the concrete age 18. -/
theorem c4_witness :
    ((mergeOptions {} [WithAgeAbove 18]).age = 18) ∧
    (∀ t1 t2 : GoTime, t1 ≠ t2 →
      allowedBirthDate t1 ((mergeOptions {} [WithAgeAbove 18]).age)
        ≠ allowedBirthDate t2 ((mergeOptions {} [WithAgeAbove 18]).age)) ∧
    (validateBase (mergeOptions {} [WithAgeAbove 18]) ((18 : Int) * 365) c4Proof
      ≠ validateBase (mergeOptions {} [WithAgeAbove 18]) ((18 : Int) * 365 - 1) c4Proof) :=
  c4_age_bound_resolved_at_validation_time 18 (by decide)

/-- C5 (counterexample): the claim as stated fails on the verifier
configured from the raw identifier x with the candidate x: the claim's
right-hand side holds (the stored digest equals the digest recomputed
from the candidate) yet VerifyExternalID rejects, because the code
compares the stored digest with the candidate string directly and never
rehashes the candidate. -/
theorem c5_counterexample : ¬ claim_C5_statement := by
  intro h
  have h2 := (h c5Verifier "x").2 ⟨by decide, rfl⟩
  exact absurd h2 (by decide)

/-- C5 (amended): VerifyExternalID succeeds exactly when the configured
digest is set and equals the candidate string itself (the caller must
pass the already-hashed hex digest); hashing happens at configuration
time, WithExternalID storing the SHA-256 hex digest of the raw
identifier. When the configured digest is unset the check fails for
every candidate. -/
theorem c5_correlation_is_direct_digest_comparison
    (v : Verifier) (candidate raw : String) :
    (VerifyExternalID v candidate = none ↔
      (v.opts.externalID ≠ "" ∧ v.opts.externalID = candidate)) ∧
    (mergeOptions {} [WithExternalID raw]).externalID = sha256Hex raw := by
  refine ⟨?_, rfl⟩
  by_cases h1 : v.opts.externalID = "" <;> by_cases h2 : v.opts.externalID = candidate <;>
    simp [VerifyExternalID, filterErrors, h1, h2]

/-- C6: whenever signal validation reports any error, VerifyProof returns
that error and its outcome is independent of the pairing-check
collaborator, which is therefore never consulted. -/
theorem c6_pairing_only_after_clean_validation
    (g1 g2 : ZKProof → String → Bool) (v : Verifier) (now : GoTime)
    (proof : ZKProof) (options : List VerifyOption) (e : VerifyError)
    (hval : validateBase (mergeOptions v.opts options) now proof = some e) :
    (VerifyProof g1 v now proof options).1 = some e ∧
    VerifyProof g1 v now proof options = VerifyProof g2 v now proof options := by
  constructor <;> simp [VerifyProof, hval]

/-- C6 witness: an absent signal vector yields the same shape error under
an always-accepting and an always-rejecting pairing check. -/
theorem c6_witness :
    (VerifyProof gTrue { verificationKey := "", opts := {} } 0 c6Proof []).1 = some c6Err ∧
    VerifyProof gTrue { verificationKey := "", opts := {} } 0 c6Proof []
      = VerifyProof gFalse { verificationKey := "", opts := {} } 0 c6Proof [] :=
  c6_pairing_only_after_clean_validation gTrue gFalse _ 0 c6Proof [] c6Err (by decide)

/-- C7: the validation outcome under a citizenship configuration depends
only on the set of configured codes: two WithCitizenships lists with the
same members (any order, any duplication) give the same validateBase
result on every proof. -/
theorem c7_citizenship_outcome_is_set_semantics
    (base : VerifyOptions) (l1 l2 : List String) (now : GoTime) (proof : ZKProof)
    (hset : ∀ x, x ∈ l1 ↔ x ∈ l2) :
    validateBase (mergeOptions base [WithCitizenships l1]) now proof
      = validateBase (mergeOptions base [WithCitizenships l2]) now proof := by
  have hemp : l1.isEmpty = l2.isEmpty := by
    cases l1 with
    | nil =>
      cases l2 with
      | nil => rfl
      | cons a t => exact absurd ((hset a).2 (List.mem_cons_self a t)) (List.not_mem_nil a)
    | cons a t =>
      cases l2 with
      | nil => exact absurd ((hset a).1 (List.mem_cons_self a t)) (List.not_mem_nil a)
      | cons b s => rfl
  have hin : inRule l1 = inRule l2 := funext fun v => by simp [inRule, hset v]
  show validateBase { base with citizenships := l1 } now proof
      = validateBase { base with citizenships := l2 } now proof
  simp only [validateBase, baseChecks, validateIdentitiesInputs, timestampRule,
    rootError, hemp, hin]

/-- C7 witness: the theorem at the concrete lists [UKR, USA] and
[USA, UKR, UKR]. -/
theorem c7_witness :
    validateBase (mergeOptions {} [WithCitizenships ["UKR", "USA"]]) 0 c2GoodProof
      = validateBase (mergeOptions {} [WithCitizenships ["USA", "UKR", "UKR"]]) 0 c2GoodProof :=
  c7_citizenship_outcome_is_set_semantics {} ["UKR", "USA"] ["USA", "UKR", "UKR"] 0 c2GoodProof
    (by intro x; constructor <;> (intro h; simp at h ⊢; tauto))

/-- C8: the per-call configuration is the fold of the call-time options
over the stored base (field-wise last-write-wins, a later option of the
same field overriding an earlier one), and VerifyProof leaves the
verifier — its stored base configuration and verification key — exactly
as it was. -/
theorem c8_merge_is_fold_and_base_unchanged
    (g : ZKProof → String → Bool) (v : Verifier) (now : GoTime)
    (proof : ZKProof) (options : List VerifyOption) :
    (VerifyProof g v now proof options).2 = v ∧
    mergeOptions v.opts options = options.foldl (fun o f => f o) v.opts ∧
    (∀ (o : VerifyOptions) (f1 f2 : VerifyOption), mergeOptions o [f1, f2] = f2 (f1 o)) ∧
    (∀ (o : VerifyOptions) (a b : String),
      (mergeOptions o [WithEventID a, WithEventID b]).eventID = b) := by
  refine ⟨?_, rfl, fun o f1 f2 => rfl, fun o a b => rfl⟩
  cases h : validateBase (mergeOptions v.opts options) now proof <;> simp [VerifyProof, h]

/-- C9: a well-shaped vector whose identity-counter signal does not parse
as a decimal integer makes validateIdentitiesInputs report exactly the
parse failure under pub_signals/identity_counter_upper_bound, the
aggregated validateBase report contains it, and that parse failure is a
distinct error kind from every ozzo validation rule error. -/
theorem c9_unparseable_counter_is_distinct_error
    (opts : VerifyOptions) (now : GoTime) (proof : ZKProof)
    (hp : proof.proof = true)
    (hl : proof.pubSignals.length = pubSignalsCount)
    (hparse : parseInt64 (proof.pubSignals.getD IdentityCounterUpperBound "") = none)
    (hroot : opts.rootVerifier (proof.pubSignals.getD IdStateRoot "") ≠ RootRes.contractCall) :
    validateIdentitiesInputs opts proof.pubSignals
        = [("pub_signals/identity_counter_upper_bound", some VErr.parseFail)] ∧
    (∃ r, validateBase opts now proof = some (VerifyError.validation r) ∧
        ("pub_signals/identity_counter_upper_bound", VErr.parseFail) ∈ r) ∧
    (VErr.parseFail ≠ VErr.required ∧ VErr.parseFail ≠ VErr.mustBeValid ∧
     VErr.parseFail ≠ VErr.maxExceeded ∧ VErr.parseFail ≠ VErr.dateTooLate ∧
     VErr.parseFail ≠ VErr.dateExpired ∧ VErr.parseFail ≠ VErr.rootInvalid ∧
     VErr.parseFail ≠ VErr.badLength) := by
  have hid : validateIdentitiesInputs opts proof.pubSignals
      = [("pub_signals/identity_counter_upper_bound", some VErr.parseFail)] := by
    unfold validateIdentitiesInputs
    rw [hparse]
  refine ⟨hid, ?_, by simp⟩
  have hshape := shapeReport_of_shapeOk proof.proof proof.pubSignals hp hl
  have hvb := validateBase_field_phase opts now proof hshape hroot
  rw [filterErrors_append, hid] at hvb
  set rep := filterErrors (baseChecks opts now proof.pubSignals)
      ++ filterErrors [("pub_signals/identity_counter_upper_bound", some VErr.parseFail)]
      with hrep
  have hmem : ("pub_signals/identity_counter_upper_bound", VErr.parseFail) ∈ rep := by
    rw [hrep]
    exact List.mem_append_right _ (by simp [filterErrors])
  have hne : rep ≠ [] := List.ne_nil_of_mem hmem
  rw [if_neg hne] at hvb
  exact ⟨rep, hvb, hmem⟩

/-- C9 witness: the theorem at the concrete vector whose counter signal
is abc. -/
theorem c9_witness :
    validateIdentitiesInputs {} c9Signals
        = [("pub_signals/identity_counter_upper_bound", some VErr.parseFail)] ∧
    (∃ r, validateBase {} 0 c9Proof = some (VerifyError.validation r) ∧
        ("pub_signals/identity_counter_upper_bound", VErr.parseFail) ∈ r) ∧
    (VErr.parseFail ≠ VErr.required ∧ VErr.parseFail ≠ VErr.mustBeValid ∧
     VErr.parseFail ≠ VErr.maxExceeded ∧ VErr.parseFail ≠ VErr.dateTooLate ∧
     VErr.parseFail ≠ VErr.dateExpired ∧ VErr.parseFail ≠ VErr.rootInvalid ∧
     VErr.parseFail ≠ VErr.badLength) :=
  c9_unparseable_counter_is_distinct_error {} 0 c9Proof
    (by decide) (by decide) (by decide) (by decide)

/-- C10: with the identity-count limit configured to 0 (distinct from the
-1 sentinel, which skips the check entirely) and a counter signal parsing
to 0, the count leg fails with the required error (the zero counter is
treated as blank by val.Required) even though 0 does not exceed the bound
0, and validateIdentitiesInputs takes the failed-counter branch. -/
theorem c10_zero_limit_rejects_zero_counter
    (opts : VerifyOptions) (signals : List String)
    (hmax : opts.maxIdentitiesCount = 0)
    (hsig : parseInt64 (signals.getD IdentityCounterUpperBound "") = some 0) :
    identityCounterRule opts.maxIdentitiesCount 0 = some VErr.required ∧
    ¬ opts.maxIdentitiesCount < 0 ∧
    identityCounterRule (-1) 0 = none ∧
    validateIdentitiesInputs opts signals
      = [("pub_signals/timestamp_upper_bound", timestampRule opts signals)] := by
  refine ⟨by simp [identityCounterRule, hmax], by simp [hmax],
    by simp [identityCounterRule], ?_⟩
  unfold validateIdentitiesInputs
  rw [hsig]
  simp [identityCounterRule, hmax]

/-- C10 witness: the theorem at the concrete limit 0 and counter signal
0. -/
theorem c10_witness :
    identityCounterRule (mergeOptions {} [WithIdentitiesCounter 0]).maxIdentitiesCount 0
      = some VErr.required ∧
    ¬ (mergeOptions {} [WithIdentitiesCounter 0]).maxIdentitiesCount < 0 ∧
    identityCounterRule (-1) 0 = none ∧
    validateIdentitiesInputs (mergeOptions {} [WithIdentitiesCounter 0]) c10Signals
      = [("pub_signals/timestamp_upper_bound",
          timestampRule (mergeOptions {} [WithIdentitiesCounter 0]) c10Signals)] :=
  c10_zero_limit_rejects_zero_counter (mergeOptions {} [WithIdentitiesCounter 0]) c10Signals
    (by decide) (by decide)

end ZkKit
